import Mathlib

/-!
Verification of the timed multiple-choice quiz engine (quiz.py).

The embedding models Python strings that participate in comparisons
(input lines, option letters, answers) as lists of characters, so that
the uppercasing performed by the prompt loop is an explicit map over
characters, mirroring the call to upper() in the source.  Wall-clock
readings from the injectable clock are rationals measuring the elapsed
time since presentation.  Console output is dropped except where an
error message is the observable outcome of a branch.
-/

/-- A Python string, as the list of its characters. -/
abbrev PyStr := List Char

/-- The uppercasing applied by the prompt to every input line,
one character at a time (the embedding of upper()). -/
def pyUpper (s : PyStr) : PyStr := s.map Char.toUpper

/-- One answer option of a question: a letter and its display text
(an element of the options array of a question record). -/
structure QOption where
  letter : PyStr
  text : String
deriving DecidableEq

/-- A question record as used by the game loop: the fields that the
gameplay code indexes unconditionally. -/
structure Question where
  question : String
  options : List QOption
  correct_answer : PyStr
  category : Option String
  difficulty : Option String
deriving DecidableEq

/-- A raw question record as handed to loading, before any field is
known to be present: every field is optional. -/
structure RawQuestion where
  question : Option String
  options : Option (List QOption)
  correct_answer : Option PyStr
  category : Option String
  difficulty : Option String
deriving DecidableEq

/-- One entry of the user_answers review log appended by check_answer. -/
structure AnswerRecord where
  question : String
  user_answer : PyStr
  correct_answer : PyStr
  is_correct : Bool
deriving DecidableEq

/-- The mutable per-session fields of the game object that the question
loop updates: score, current_question and user_answers. -/
structure GameState where
  score : ℚ
  current_question : Nat
  user_answers : List AnswerRecord
deriving DecidableEq

/-- The session state at the start of a run: score 0, index 0, empty log. -/
def initState : GameState := { score := 0, current_question := 0, user_answers := [] }

/-- What load_questions receives once file handling and JSON parsing are
taken as an external collaborator: either the file was absent, or parsing
or indexing the questions key failed with some message, or a list of raw
records was produced. -/
inductive LoadInput where
  | fileNotFound : LoadInput
  | loadError : String → LoadInput
  | parsed : List RawQuestion → LoadInput
deriving DecidableEq

/-- The observable outcome of load_questions: the new store contents
(questions plus derived category set) when loading succeeded, the line
printed, and whether an exception propagates to the caller. -/
structure LoadReturn where
  newState : Option (List RawQuestion × List String)
  printed : String
  raisedToCaller : Bool
deriving DecidableEq

/-- The derived category set: categories of the records that have one
(the set comprehension over records with a category key). -/
def categoriesOf (qs : List RawQuestion) : List String :=
  (qs.filterMap (fun q => q.category)).dedup

/-- The embedding of load_questions: the body stores the records and the
derived category set; both except branches print a message and return
normally, so no branch raises to the caller.  No record is validated. -/
def load_questions : LoadInput → LoadReturn
  | LoadInput.fileNotFound =>
      { newState := none, printed := "Error: file not found.", raisedToCaller := false }
  | LoadInput.loadError msg =>
      { newState := none, printed := "Error loading questions: " ++ msg, raisedToCaller := false }
  | LoadInput.parsed qs =>
      { newState := some (qs, categoriesOf qs), printed := "Loaded questions.",
        raisedToCaller := false }

/-- Modelled from the spec: well-formedness of a Question record as the
specification demands it (required fields present, option letters unique
within the question).  The source performs no such check; this predicate
exists only to compare the specified contract with the code. -/
def specWellFormedQuestion (r : RawQuestion) : Bool :=
  r.question.isSome && r.correct_answer.isSome &&
    (match r.options with
     | none => false
     | some os => decide (os.map (fun o => o.letter)).Nodup)

/-- The per-question filter predicate of filter_questions: skip a question
when a category is selected and differs, or a difficulty is selected and
differs; keep it otherwise. -/
def matchesFilter (cat diff : Option String) (q : Question) : Bool :=
  (match cat with
   | none => true
   | some c => decide (q.category = some c)) &&
  (match diff with
   | none => true
   | some d => decide (q.difficulty = some d))

/-- The embedding of filter_questions.  The shuffle performed by the
injectable randomness source is a parameter.  When the filtered list is
empty the full question list is returned as the code returns
self.questions there; otherwise the filtered list is shuffled and cut to
the first ten entries. -/
def filter_questions (cat diff : Option String)
    (shuffle : List Question → List Question) (qs : List Question) : List Question :=
  let filtered := qs.filter (matchesFilter cat diff)
  if filtered = [] then qs
  else (shuffle filtered).take 10

/-- The option letters of a question, in order (the list comprehension
used by the membership test of the prompt loop). -/
def optionLetters (q : Question) : List PyStr :=
  q.options.map (fun o => o.letter)

/-- The uppercased skip sentinel recognised by the prompt loop. -/
def skipSentinel : PyStr := ['S']

/-- One pass of the prompt loop: the input line obtained, the elapsed
time read by the deadline check, and the elapsed time read again when
the duration of the answer is computed. -/
structure InputEvent where
  line : PyStr
  tCheck : ℚ
  tAnswer : ℚ
deriving DecidableEq

/-- The embedding of the input loop of ask_question.  Each event is one
iteration: the line is uppercased, then the deadline check compares the
elapsed reading with 10, then the skip sentinel, then membership among
the option letters; an unrecognised line re-prompts, which is the
recursive call.  An empty event list means no further input ever
arrives; the loop is then stuck inside the blocking read, and the result
is none: the prompt never resolves. -/
def ask_question (q : Question) : List InputEvent → Option (Option PyStr × Bool)
  | [] => none
  | e :: rest =>
      let answer := pyUpper e.line
      if e.tCheck > 10 then some (none, false)
      else if answer = skipSentinel then some (none, false)
      else if (optionLetters q).contains answer then
        some (some answer, decide (e.tAnswer < 5))
      else ask_question q rest

/-- The embedding of check_answer: compare with the correct answer, add
one to the score when correct, and append the review record. -/
def check_answer (st : GameState) (user_answer : PyStr) (q : Question) : GameState :=
  let correct := decide (user_answer = q.correct_answer)
  { st with
    score := if correct then st.score + 1 else st.score,
    user_answers := st.user_answers ++
      [{ question := q.question, user_answer := user_answer,
         correct_answer := q.correct_answer, is_correct := correct }] }

/-- One iteration of the question loop of run: the index is advanced,
then, only when an answer was returned, check_answer runs and the quick
bonus of one half is added when the quick flag is set. -/
def answerStep (st : GameState) (q : Question) (r : Option PyStr × Bool) : GameState :=
  let st1 := { st with current_question := st.current_question + 1 }
  match r with
  | (some a, quick) =>
      let st2 := check_answer st1 a q
      if quick then { st2 with score := st2.score + (1 / 2 : ℚ) } else st2
  | (none, _) => st1

/-- The question loop of run, over the selected questions paired with
the outcome the timed prompt produced for each. -/
def runLoop (st : GameState) : List (Question × (Option PyStr × Bool)) → GameState
  | [] => st
  | (q, r) :: rest => runLoop (answerStep st q r) rest

/-- The percentage computation of show_results: score over total times
one hundred, and zero when there are no questions. -/
def percentage (score : ℚ) (total : Nat) : ℚ :=
  if 0 < total then score / total * 100 else 0

/-- The performance-feedback branches of show_results, mapped to the
tier labels: at least 90, at least 70, at least 50, otherwise. -/
def tier (p : ℚ) : String :=
  if p ≥ 90 then "Excellent"
  else if p ≥ 70 then "Great"
  else if p ≥ 50 then "Good"
  else "Needs improvement"

/-- The first sample question of the bank shipped with the source
(question texts abbreviated; letters, answers, categories and
difficulties as in the source). -/
def sampleQ1 : Question :=
  { question := "sample question 1",
    options := [{ letter := ['A'], text := "21" }, { letter := ['B'], text := "777" },
                { letter := ['C'], text := "TypeError" }, { letter := ['D'], text := "37" }],
    correct_answer := ['B'],
    category := some "Python Basics",
    difficulty := some "Easy" }

/-- The second sample question of the bank shipped with the source. -/
def sampleQ2 : Question :=
  { question := "sample question 2",
    options := [{ letter := ['A'], text := "list" }, { letter := ['B'], text := "tuple" },
                { letter := ['C'], text := "array" }, { letter := ['D'], text := "dictionary" }],
    correct_answer := ['C'],
    category := some "Python Basics",
    difficulty := some "Easy" }

/-- The third sample question of the bank shipped with the source. -/
def sampleQ3 : Question :=
  { question := "sample question 3",
    options := [{ letter := ['A'], text := "Compresses files" },
                { letter := ['B'], text := "Combines iterables element-wise" },
                { letter := ['C'], text := "Creates a backup of data" },
                { letter := ['D'], text := "Encrypts strings" }],
    correct_answer := ['B'],
    category := some "Python Functions",
    difficulty := some "Medium" }

/-- The sample bank of three questions shipped with the source. -/
def sampleBank : List Question := [sampleQ1, sampleQ2, sampleQ3]

/-- A question whose option letters are stored in lower case; the data
model only requires letters to be single characters. -/
def qLower : Question :=
  { question := "lower case letters",
    options := [{ letter := ['b'], text := "the only option" }],
    correct_answer := ['b'],
    category := none,
    difficulty := none }

/-- A raw record with duplicate option letters: not well-formed in the
sense of the specified loading contract. -/
def badRecord : RawQuestion :=
  { question := some "dup letters",
    options := some [{ letter := ['A'], text := "x" }, { letter := ['A'], text := "y" }],
    correct_answer := some ['A'],
    category := none,
    difficulty := none }

/-- A question of the eleven-question bank used to exercise the fallback
path of the selector. -/
def mkQ (i : Nat) : Question :=
  { question := "bank question " ++ toString i,
    options := [{ letter := ['A'], text := "only" }],
    correct_answer := ['A'],
    category := some "A",
    difficulty := some "Easy" }

/-- An eleven-question bank in which every question has category A. -/
def bank11 : List Question := (List.range 11).map mkQ

/-! ### Helper lemmas about the question loop -/

theorem answerStep_current (st : GameState) (q : Question) (r : Option PyStr × Bool) :
    (answerStep st q r).current_question = st.current_question + 1 := by
  obtain ⟨o, b⟩ := r
  cases o <;> cases b <;> rfl

theorem answerStep_log (st : GameState) (q : Question) (r : Option PyStr × Bool) :
    (answerStep st q r).user_answers.length
      = st.user_answers.length + (if r.1.isSome then 1 else 0) := by
  obtain ⟨o, b⟩ := r
  cases o <;> cases b <;> simp [answerStep, check_answer]

theorem answerStep_score_ge (st : GameState) (q : Question) (r : Option PyStr × Bool) :
    st.score ≤ (answerStep st q r).score := by
  obtain ⟨o, b⟩ := r
  cases o with
  | none => cases b <;> simp [answerStep]
  | some a => cases b <;> simp [answerStep, check_answer] <;> split_ifs <;> linarith

theorem answerStep_score_some (st : GameState) (q : Question) (a : PyStr) (quick : Bool) :
    (answerStep st q (some a, quick)).score
      = st.score + (if a = q.correct_answer then (1 : ℚ) else 0)
          + (if quick then (1 / 2 : ℚ) else 0) := by
  cases quick <;> simp [answerStep, check_answer] <;> split_ifs <;> ring

theorem runLoop_append (st : GameState) (l1 l2 : List (Question × (Option PyStr × Bool))) :
    runLoop st (l1 ++ l2) = runLoop (runLoop st l1) l2 := by
  induction l1 generalizing st with
  | nil => rfl
  | cons e rest ih =>
      obtain ⟨q, r⟩ := e
      simp [runLoop, ih]

theorem runLoop_current (st : GameState) (l : List (Question × (Option PyStr × Bool))) :
    (runLoop st l).current_question = st.current_question + l.length := by
  induction l generalizing st with
  | nil => simp [runLoop]
  | cons e rest ih =>
      obtain ⟨q, r⟩ := e
      simp [runLoop, ih, answerStep_current]
      omega

theorem runLoop_score_ge (st : GameState) (l : List (Question × (Option PyStr × Bool))) :
    st.score ≤ (runLoop st l).score := by
  induction l generalizing st with
  | nil => simp [runLoop]
  | cons e rest ih =>
      obtain ⟨q, r⟩ := e
      simp only [runLoop]
      exact le_trans (answerStep_score_ge st q r) (ih (answerStep st q r))

theorem runLoop_log (st : GameState) (l : List (Question × (Option PyStr × Bool))) :
    (runLoop st l).user_answers.length
      = st.user_answers.length + (l.filter (fun e => e.2.1.isSome)).length := by
  induction l generalizing st with
  | nil => simp [runLoop]
  | cons e rest ih =>
      obtain ⟨q, r⟩ := e
      simp only [runLoop, ih, answerStep_log, List.filter_cons]
      cases h : r.1.isSome <;> simp [h]
      omega

theorem runLoop_allCorrectQuick (st : GameState) (qs : List Question) :
    (runLoop st (qs.map (fun q => (q, (some q.correct_answer, true))))).score
      = st.score + (3 / 2 : ℚ) * qs.length := by
  induction qs generalizing st with
  | nil => simp [runLoop]
  | cons q rest ih =>
      simp only [List.map_cons, runLoop, ih, answerStep_score_some]
      simp
      ring

/-! ### The claims -/

/-- C3 (amended): the timed prompt times out only strictly after the ten
second deadline: whenever the elapsed reading at the deadline check of an
input attempt exceeds 10, ask_question returns (none, false); at exactly
10 seconds the check does not fire. -/
theorem C3_timeout_strict (q : Question) (e : InputEvent) (rest : List InputEvent)
    (h : (10 : ℚ) < e.tCheck) :
    ask_question q (e :: rest) = some (none, false) := by
  simp only [ask_question]
  rw [if_pos h]

/-- C3 witness: a single input attempt at elapsed 11 seconds times out. -/
theorem C3_witness : ask_question sampleQ1 [⟨[], 11, 11⟩] = some (none, false) :=
  C3_timeout_strict sampleQ1 ⟨[], 11, 11⟩ [] (by norm_num)

/-- C3 counterexample: with the clock advanced to exactly 10 seconds and
no valid input (an empty line), the prompt does not transition to a
timeout: it re-prompts and then blocks, so it does not return
(none, false) as the claim states. -/
theorem C3_counterexample :
    ask_question sampleQ1 [⟨[], 10, 10⟩] = none
    ∧ ask_question sampleQ1 [⟨[], 10, 10⟩] ≠ some (none, false) := by
  constructor <;> decide

/-- C4 (amended): when the elapsed reading at the deadline check is at
most 10, and the uppercased input line is not the skip sentinel and
equals one of the option letters of the question, ask_question answers
with the uppercased line and quick is exactly the comparison of the
elapsed answer reading with 5 (strict, so 4.9 is quick and 5.0 is not).
Matching uppercases the input, so it is case-insensitive only for
questions whose stored option letters are upper case. -/
theorem C4_answer_upper (q : Question) (e : InputEvent) (rest : List InputEvent)
    (h1 : ¬ (10 : ℚ) < e.tCheck) (h2 : pyUpper e.line ≠ skipSentinel)
    (h3 : (optionLetters q).contains (pyUpper e.line) = true) :
    ask_question q (e :: rest) = some (some (pyUpper e.line), decide (e.tAnswer < 5)) := by
  simp only [ask_question]
  rw [if_neg h1, if_neg h2, if_pos h3]

/-- C4 witness: on the first sample question, the lower-case line b at
elapsed 4.9 seconds answers B with the quick flag set, and at elapsed
5.0 seconds answers B without it. -/
theorem C4_witness :
    ask_question sampleQ1 [⟨['b'], 1, 49 / 10⟩] = some (some ['B'], true)
    ∧ ask_question sampleQ1 [⟨['b'], 1, 5⟩] = some (some ['B'], false) := by
  have h1 : pyUpper ['b'] = ['B'] := by decide
  constructor
  · rw [C4_answer_upper sampleQ1 ⟨['b'], 1, 49 / 10⟩ [] (by norm_num) (by decide) (by decide)]
    have h2 : decide ((49 / 10 : ℚ) < 5) = true := by norm_num
    simp only [h1]
    norm_num
  · rw [C4_answer_upper sampleQ1 ⟨['b'], 1, 5⟩ [] (by norm_num) (by decide) (by decide)]
    simp only [h1]
    norm_num

/-- C4 counterexample: for a question whose option letter is the lower
case b, the input line b matches that letter case-insensitively and
arrives well before the deadline, yet the prompt does not answer: the
uppercased line B equals no stored letter, so the loop re-prompts and
then blocks. -/
theorem C4_counterexample :
    (optionLetters qLower).contains ['b'] = true
    ∧ ask_question qLower [⟨['b'], 1, 1⟩] = none := by
  constructor <;> decide

/-- C5 (confirmed): scoring an answered question records
is_correct as the equality of the answer with the correct answer,
adds one exactly when the answer is correct, and adds one half exactly
when the quick flag is set, independently of correctness. -/
theorem C5_scoring (st : GameState) (q : Question) (a : PyStr) (quick : Bool) :
    (answerStep st q (some a, quick)).score
        = st.score + (if a = q.correct_answer then (1 : ℚ) else 0)
            + (if quick then (1 / 2 : ℚ) else 0)
    ∧ (answerStep st q (some a, quick)).user_answers
        = st.user_answers ++
            [{ question := q.question, user_answer := a,
               correct_answer := q.correct_answer,
               is_correct := decide (a = q.correct_answer) }] := by
  refine ⟨answerStep_score_some st q a quick, ?_⟩
  cases quick <;> simp [answerStep, check_answer]

/-- C6 (confirmed): the reporter divides the score by the number of
questions and multiplies by one hundred, yields zero for an empty
session, and maps the percentage to the four tiers by the top-down
thresholds 90, 70 and 50; in particular 89.9 is Great, 90 is Excellent
and 49.9 is Needs improvement. -/
theorem C6_reporter :
    (∀ s : ℚ, percentage s 0 = 0)
    ∧ (∀ (s : ℚ) (n : Nat), 0 < n → percentage s n = s / n * 100)
    ∧ (∀ p : ℚ, 90 ≤ p → tier p = "Excellent")
    ∧ (∀ p : ℚ, 70 ≤ p → p < 90 → tier p = "Great")
    ∧ (∀ p : ℚ, 50 ≤ p → p < 70 → tier p = "Good")
    ∧ (∀ p : ℚ, p < 50 → tier p = "Needs improvement")
    ∧ tier (899 / 10) = "Great" ∧ tier 90 = "Excellent"
    ∧ tier (499 / 10) = "Needs improvement" := by
  refine ⟨fun s => rfl, fun s n hn => by simp [percentage, hn], ?_, ?_, ?_, ?_, ?_, ?_, ?_⟩
  · intro p hp
    simp [tier, hp]
  · intro p h1 h2
    have h90 : ¬ p ≥ 90 := by linarith
    simp [tier, h90, h1]
  · intro p h1 h2
    have h90 : ¬ p ≥ 90 := by linarith
    have h70 : ¬ p ≥ 70 := by linarith
    simp [tier, h90, h70, h1]
  · intro p h1
    have h90 : ¬ p ≥ 90 := by linarith
    have h70 : ¬ p ≥ 70 := by linarith
    have h50 : ¬ p ≥ 50 := by linarith
    simp [tier, h90, h70, h50]
  · norm_num [tier]
  · norm_num [tier]
  · norm_num [tier]

/-- C6 witness: seven of ten is seventy percent, which is Great. -/
theorem C6_witness : percentage 7 10 = 70 ∧ tier 70 = "Great" := by
  constructor
  · rw [C6_reporter.2.1 7 10 (by norm_num)]
    norm_num
  · exact C6_reporter.2.2.2.1 70 (by norm_num) (by norm_num)

/-- C9: with no input line ever arriving, the prompt loop is stuck
inside the blocking read and never reaches the deadline check, so it
never resolves; the code does not guarantee the check happens at least
once under no input. -/
theorem C9_blocking_no_input (q : Question) : ask_question q [] = none := rfl

/-- C1 counterexample: on an eleven-question bank whose every question
has category A, a filter for category B matches nothing; the fallback
returns the bank exactly as stored, eleven entries long, with the
injected shuffle (here reversal) never applied, contradicting the claim
that the fallback result is shuffled and cut to at most ten entries. -/
theorem C1_counterexample :
    bank11.filter (matchesFilter (some "B") none) = []
    ∧ filter_questions (some "B") none List.reverse bank11 = bank11
    ∧ (filter_questions (some "B") none List.reverse bank11).length = 11
    ∧ ¬ (filter_questions (some "B") none List.reverse bank11).length ≤ 10 := by
  refine ⟨by decide, by decide, by decide, by decide⟩

/-- C1 (amended): when the category and difficulty filter matches no
question, filter_questions returns the full unfiltered bank unchanged:
the fallback is neither shuffled nor truncated; shuffling and the
ten-entry cap apply only to a non-empty filtered result. -/
theorem C1_fallback_unfiltered (cat diff : Option String)
    (shuffle : List Question → List Question) (qs : List Question)
    (h : qs.filter (matchesFilter cat diff) = []) :
    filter_questions cat diff shuffle qs = qs := by
  simp [filter_questions, h]

/-- C1 witness: the sample bank has no question of category Nope, and
the fallback returns the whole sample bank. -/
theorem C1_fallback_unfiltered_witness :
    filter_questions (some "Nope") none List.reverse sampleBank = sampleBank :=
  C1_fallback_unfiltered (some "Nope") none List.reverse sampleBank (by decide)

/-- C2 counterexample: a record with duplicate option letters is not
well-formed in the sense of the specified loading contract, yet loading
it raises nothing to the caller and stores the record as-is; no
FormatError is surfaced. -/
theorem C2_counterexample :
    specWellFormedQuestion badRecord = false
    ∧ (load_questions (LoadInput.parsed [badRecord])).raisedToCaller = false
    ∧ (load_questions (LoadInput.parsed [badRecord])).newState
        = some ([badRecord], []) := by
  refine ⟨by decide, rfl, by decide⟩

/-- C2 (amended): load_questions never raises to the caller: file and
parse errors are caught and printed, and parsed records are stored
without any well-formedness validation. -/
theorem C2_load_never_raises :
    (∀ input : LoadInput, (load_questions input).raisedToCaller = false)
    ∧ (∀ qs : List RawQuestion,
        (load_questions (LoadInput.parsed qs)).newState = some (qs, categoriesOf qs)) := by
  constructor
  · intro input
    cases input <;> rfl
  · intro qs
    rfl

/-- C7 (confirmed): for any permutation-valued shuffle, when the filter
matches at least one question the selection has at most ten entries,
every selected question satisfies the filter, the filtering stage keeps
a question of the bank exactly when it satisfies the filter, and the
filter predicate is precisely: the category is unselected or matches,
and the difficulty is unselected or matches. -/
theorem C7_filter_select (cat diff : Option String)
    (shuffle : List Question → List Question) (qs : List Question)
    (hs : ∀ l, (shuffle l).Perm l)
    (hne : qs.filter (matchesFilter cat diff) ≠ []) :
    (filter_questions cat diff shuffle qs).length ≤ 10
    ∧ (∀ q, q ∈ filter_questions cat diff shuffle qs → matchesFilter cat diff q = true)
    ∧ (∀ q, q ∈ qs → (q ∈ qs.filter (matchesFilter cat diff) ↔ matchesFilter cat diff q = true))
    ∧ (∀ q, matchesFilter cat diff q = true ↔
        ((cat = none ∨ q.category = cat) ∧ (diff = none ∨ q.difficulty = diff))) := by
  have hfq : filter_questions cat diff shuffle qs
      = (shuffle (qs.filter (matchesFilter cat diff))).take 10 := by
    simp [filter_questions, hne]
  refine ⟨?_, ?_, ?_, ?_⟩
  · rw [hfq]
    exact List.length_take_le 10 _
  · intro q hq
    rw [hfq] at hq
    have hq2 := List.mem_of_mem_take hq
    have hq3 := (hs (qs.filter (matchesFilter cat diff))).mem_iff.mp hq2
    exact (List.mem_filter.mp hq3).2
  · intro q hq
    simp [List.mem_filter, hq]
  · intro q
    cases cat <;> cases diff <;> simp [matchesFilter]

/-- C7 witness: filtering the sample bank for category Python Basics
with the identity shuffle gives at most ten questions, all matching. -/
theorem C7_witness :
    (filter_questions (some "Python Basics") none id sampleBank).length ≤ 10
    ∧ (∀ q, q ∈ filter_questions (some "Python Basics") none id sampleBank →
        matchesFilter (some "Python Basics") none q = true) := by
  have h := C7_filter_select (some "Python Basics") none id sampleBank
    (fun l => List.Perm.refl l) (by decide)
  exact ⟨h.1, h.2.1⟩

/-- C8 (confirmed): across a session the index after any prefix of the
question loop equals the number of questions processed and never exceeds
the session length, the score never decreases from any state to any
later state and stays non-negative, the log length equals the number of
events that carried an answer, and a skipped or timed-out question
advances the index while leaving score and log untouched. -/
theorem C8_invariants (events pre post : List (Question × (Option PyStr × Bool)))
    (h : events = pre ++ post) :
    (runLoop initState pre).current_question = pre.length
    ∧ (runLoop initState pre).current_question ≤ events.length
    ∧ (runLoop initState pre).score ≤ (runLoop initState events).score
    ∧ 0 ≤ (runLoop initState pre).score
    ∧ (runLoop initState events).user_answers.length
        = (events.filter (fun e => e.2.1.isSome)).length
    ∧ (∀ (st : GameState) (q : Question) (r : Option PyStr × Bool),
        st.score ≤ (answerStep st q r).score)
    ∧ (∀ (st : GameState) (q : Question) (b : Bool),
        (answerStep st q (none, b)).current_question = st.current_question + 1
        ∧ (answerStep st q (none, b)).score = st.score
        ∧ (answerStep st q (none, b)).user_answers = st.user_answers) := by
  subst h
  have hcur : (runLoop initState pre).current_question = pre.length := by
    simpa [initState] using runLoop_current initState pre
  refine ⟨hcur, ?_, ?_, ?_, ?_, answerStep_score_ge, ?_⟩
  · rw [hcur, List.length_append]
    exact Nat.le_add_right _ _
  · rw [runLoop_append]
    exact runLoop_score_ge _ _
  · simpa [initState] using runLoop_score_ge initState pre
  · simpa [initState] using runLoop_log initState (pre ++ post)
  · intro st q b
    exact ⟨rfl, rfl, rfl⟩

/-- C8 witness: a two-question session in which the first question is
answered and the second times out has index one after the first step and
a single log entry at the end. -/
theorem C8_witness :
    (runLoop initState [(sampleQ1, (some ['B'], true))]).current_question = 1
    ∧ (runLoop initState
        [(sampleQ1, (some ['B'], true)), (sampleQ2, ((none : Option PyStr), false))]
        ).user_answers.length = 1 := by
  have h := C8_invariants
    [(sampleQ1, (some ['B'], true)), (sampleQ2, ((none : Option PyStr), false))]
    [(sampleQ1, (some ['B'], true))] [(sampleQ2, ((none : Option PyStr), false))] rfl
  refine ⟨by simpa using h.1, by simpa using h.2.2.2.2.1⟩

/-- C10 (confirmed): when every question of a non-empty session is
answered correctly and quickly, each step adds one and a half, so the
final score is one and a half times the number of questions, the
reported percentage is 150, which exceeds 100, and the tier is still
Excellent. -/
theorem C10_overscore (qs : List Question) (h : qs ≠ []) :
    (runLoop initState (qs.map (fun q => (q, (some q.correct_answer, true))))).score
        = (3 / 2 : ℚ) * qs.length
    ∧ percentage
        ((runLoop initState (qs.map (fun q => (q, (some q.correct_answer, true))))).score)
        qs.length = 150
    ∧ (100 : ℚ) < percentage
        ((runLoop initState (qs.map (fun q => (q, (some q.correct_answer, true))))).score)
        qs.length
    ∧ tier (percentage
        ((runLoop initState (qs.map (fun q => (q, (some q.correct_answer, true))))).score)
        qs.length) = "Excellent" := by
  have hs : (runLoop initState (qs.map (fun q => (q, (some q.correct_answer, true))))).score
      = (3 / 2 : ℚ) * qs.length := by
    simpa [initState] using runLoop_allCorrectQuick initState qs
  have hlen : 0 < qs.length := List.length_pos.mpr h
  have hcast : (qs.length : ℚ) ≠ 0 := (Nat.cast_pos.mpr hlen).ne'
  have hperc : percentage
      ((runLoop initState (qs.map (fun q => (q, (some q.correct_answer, true))))).score)
      qs.length = 150 := by
    rw [hs]
    simp only [percentage, if_pos hlen]
    field_simp
    ring
  refine ⟨hs, hperc, ?_, ?_⟩
  · rw [hperc]
    norm_num
  · rw [hperc]
    norm_num [tier]

/-- C10 witness: a one-question session answered correctly and quickly
reports 150 percent. -/
theorem C10_witness :
    percentage
      ((runLoop initState [(sampleQ1, (some sampleQ1.correct_answer, true))]).score) 1
      = 150 := by
  have h := C10_overscore [sampleQ1] (by simp)
  simpa using h.2.1
